import Mathlib

/-
Verification of the interactive transaction construction core
(`lightning/src/ln/interactivetxs.rs`): a shallow embedding of the
negotiation context, its receive/send mutators, the terminal
`build_transaction` validation, and the typed state machine, together
with theorems settling the specification claims.

Bitcoin scripts are modelled as byte lists; a previous transaction blob
is modelled by its txid (standing for the double-SHA256 of its
serialization) together with its output list, which is all the code
reads from it.  Machine integers (u16/u32/u64/i64) are modelled as
Nat/Int, with saturating arithmetic made explicit where the source uses
it.
-/

/-- Maximum value of a u64; `saturating_add` on u64 caps here. -/
def U64_MAX : Nat := 2 ^ 64 - 1

/-- Maximum value of an i64; `saturating_abs` on i64 caps here. -/
def I64_MAX : Nat := 2 ^ 63 - 1

/-- u64 `saturating_add`. -/
def satAdd64 (a b : Nat) : Nat := min (a + b) U64_MAX

/-- The u64 value of `x.saturating_abs().unsigned_abs()` for an i64 `x`:
the absolute value, except that `i64::MIN` saturates to `i64::MAX`. -/
def satAbsU64 (x : Int) : Nat := min x.natAbs I64_MAX

/-- Number of received `tx_add_input` messages at which negotiation MUST fail. -/
def MAX_RECEIVED_TX_ADD_INPUT_COUNT : Nat := 4096

/-- Number of received `tx_add_output` messages at which negotiation MUST fail. -/
def MAX_RECEIVED_TX_ADD_OUTPUT_COUNT : Nat := 4096

/-- Maximum number of inputs or of outputs at `build` time. -/
def MAX_INPUTS_OUTPUTS_COUNT : Nat := 252

/-- `WITNESS_SCALE_FACTOR` from bitcoin: weight units per non-witness byte. -/
def WITNESS_SCALE_FACTOR : Nat := 4

/-- `bitcoin::policy::MAX_STANDARD_TX_WEIGHT` (Bitcoin Core standardness). -/
def MAX_STANDARD_TX_WEIGHT : Nat := 400000

/-- `TOTAL_BITCOIN_SUPPLY_SATOSHIS` (from `ln::channel`, 21,000,000 BTC in sats). -/
def TOTAL_BITCOIN_SUPPLY_SATOSHIS : Nat := 21000000 * 100000000

/-- Modelled from the spec: `BASE_INPUT_WEIGHT` of `events::bump_transaction`
(not under src/): the weight of the fixed part of an input,
(32 txid + 4 vout + 4 sequence) bytes scaled by the witness scale factor. -/
def BASE_INPUT_WEIGHT : Nat := (32 + 4 + 4) * WITNESS_SCALE_FACTOR

/-- Modelled from the spec: `EMPTY_SCRIPT_SIG_WEIGHT` of
`events::bump_transaction` (not under src/): one length byte scaled by the
witness scale factor. -/
def EMPTY_SCRIPT_SIG_WEIGHT : Nat := 1 * WITNESS_SCALE_FACTOR

/-- Modelled from the spec: `fee_for_weight` of `chain::chaininterface`
(not under src/): `⌈weight · feerate_sat_per_kw / 1000⌉`. -/
def fee_for_weight (feerate_sat_per_kw : Nat) (weight : Nat) : Nat :=
  (weight * feerate_sat_per_kw + 1000 - 1) / 1000

/-- Length of the Bitcoin compact-size (var-int) encoding of `n`. -/
def varintLen (n : Nat) : Nat :=
  if n < 0xFD then 1 else if n < 0x10000 then 3
  else if n < 0x100000000 then 5 else 9

/-- A Bitcoin script, as its list of bytes. -/
abbrev Script := List Nat

/-- Number of bytes `Script::consensus_encode` writes: the compact-size
length prefix followed by the script bytes. -/
def consensusEncodedLen (s : Script) : Nat := varintLen s.length + s.length

/-- `Script::is_witness_program` (rust-bitcoin): length between 4 and 42, a
version opcode (`OP_0` or `OP_PUSHNUM_1..16`), and a second byte pushing
exactly the remaining bytes (2 to 40 of them). -/
def is_witness_program (s : Script) : Bool :=
  decide (4 ≤ s.length ∧ s.length ≤ 42 ∧
    (s.getD 0 0 = 0 ∨ (0x51 ≤ s.getD 0 0 ∧ s.getD 0 0 ≤ 0x60)) ∧
    2 ≤ s.getD 1 0 ∧ s.getD 1 0 ≤ 40 ∧ s.getD 1 0 = s.length - 2)

/-- `Script::is_v0_p2wpkh`: `OP_0 OP_PUSHBYTES_20 <20 bytes>`. -/
def is_v0_p2wpkh (s : Script) : Bool :=
  decide (s.length = 22 ∧ s.getD 0 0 = 0 ∧ s.getD 1 0 = 20)

/-- `Script::is_v0_p2wsh`: `OP_0 OP_PUSHBYTES_32 <32 bytes>`. -/
def is_v0_p2wsh (s : Script) : Bool :=
  decide (s.length = 34 ∧ s.getD 0 0 = 0 ∧ s.getD 1 0 = 32)

/-- `Script::is_op_return`: first byte is `OP_RETURN` (0x6a). -/
def is_op_return (s : Script) : Bool :=
  match s with
  | [] => false
  | b :: _ => decide (b = 0x6a)

/-- `Script::witness_version` (rust-bitcoin): reads only the first byte. -/
def witness_version (s : Script) : Option Nat :=
  match s with
  | [] => none
  | b :: _ =>
    if b = 0 then some 0
    else if 0x51 ≤ b ∧ b ≤ 0x60 then some (b - 0x50) else none

/-- `Script::dust_value` (rust-bitcoin, identical to Core's dust threshold):
3 sat/vB times the output size plus the lower-bound size of an input
spending it (67 vbytes for witness scripts, 148 otherwise). -/
def dust_value (s : Script) : Nat :=
  if is_op_return s then 0
  else if is_witness_program s then (8 + consensusEncodedLen s + 67) * 3
  else (8 + consensusEncodedLen s + 148) * 3

/-- A 64-bit serial id; parity encodes the contributor's role. -/
abbrev SerialId := Nat

/-- `SerialId::is_for_initiator`: even serial ids belong to the initiator. -/
def SerialId.is_for_initiator (s : SerialId) : Bool := s % 2 == 0

/-- `SerialId::is_for_non_initiator`. -/
def SerialId.is_for_non_initiator (s : SerialId) : Bool := !s.is_for_initiator

/-- `AbortReason`: every way the negotiation can fail. -/
inductive AbortReason where
  | InvalidStateTransition
  | UnexpectedCounterpartyMessage
  | ReceivedTooManyTxAddInputs
  | ReceivedTooManyTxAddOutputs
  | IncorrectInputSequenceValue
  | IncorrectSerialIdParity
  | SerialIdUnknown
  | DuplicateSerialId
  | PrevTxOutInvalid
  | ExceededMaximumSatsAllowed
  | ExceededNumberOfInputsOrOutputs
  | TransactionTooLarge
  | BelowDustLimit
  | InvalidOutputScript
  | InsufficientFees
  | OutputsValueExceedsInputsValue
  | InvalidTx
  deriving Repr, DecidableEq

/-- `bitcoin::OutPoint`: a `(txid, vout)` reference; the txid is modelled as
an abstract numeric identity. -/
structure OutPoint where
  txid : Nat
  vout : Nat
  deriving Repr, DecidableEq

/-- `bitcoin::TxIn` as constructed by this module: previous output,
script_sig bytes and sequence; all witnesses in this module are empty. -/
structure TxIn where
  previous_output : OutPoint
  script_sig : Script := []
  sequence : Nat
  deriving Repr, DecidableEq

/-- `bitcoin::TxOut`. -/
structure TxOut where
  value : Nat
  script_pubkey : Script
  deriving Repr, DecidableEq

/-- `TransactionU16LenLimited`: the previous-transaction blob carried in a
`tx_add_input`, modelled by the txid of the transaction it serializes
(`as_transaction().txid()`) and that transaction's output list — all that
the negotiation code reads from it. -/
structure TransactionU16LenLimited where
  txid : Nat
  output : List TxOut
  deriving Repr, DecidableEq

/-- The built `bitcoin::Transaction` (all witnesses empty). -/
structure Transaction where
  version : Nat
  lock_time : Nat
  input : List TxIn
  output : List TxOut
  deriving Repr, DecidableEq

/-- Base-serialization size in bytes of one input (empty witness). -/
def txInBaseSize (i : TxIn) : Nat :=
  32 + 4 + varintLen i.script_sig.length + i.script_sig.length + 4

/-- Serialization size in bytes of one output. -/
def txOutSize (o : TxOut) : Nat := 8 + consensusEncodedLen o.script_pubkey

/-- Base (non-witness) serialization size of a transaction. -/
def txBaseSize (tx : Transaction) : Nat :=
  4 + varintLen tx.input.length + (tx.input.map txInBaseSize).sum
    + varintLen tx.output.length + (tx.output.map txOutSize).sum + 4

/-- `Transaction::weight().to_wu()`: every transaction assembled by this
module has only empty witnesses, so it serializes in legacy form and its
weight is base size × 4 (base·3 + total with total = base). -/
def txWeight (tx : Transaction) : Nat := WITNESS_SCALE_FACTOR * txBaseSize tx

/-- `msgs::TxAddInput` (the channel id, ignored by the negotiation context,
is omitted). -/
structure TxAddInput where
  serial_id : SerialId
  prevtx : TransactionU16LenLimited
  prevtx_out : Nat
  sequence : Nat
  shared_input_txid : Option Nat
  deriving Repr, DecidableEq

/-- `msgs::TxAddOutput`. -/
structure TxAddOutput where
  serial_id : SerialId
  sats : Nat
  script : Script
  deriving Repr, DecidableEq

/-- `msgs::TxRemoveInput`. -/
structure TxRemoveInput where
  serial_id : SerialId
  deriving Repr, DecidableEq

/-- `msgs::TxRemoveOutput`. -/
structure TxRemoveOutput where
  serial_id : SerialId
  deriving Repr, DecidableEq

/-- `SharedFundingInput`: the previous funding output re-spent in a splice. -/
structure SharedFundingInput where
  txin : TxIn
  txout : TxOut
  to_remote_value_satoshis : Nat
  to_local_value_satoshis : Nat
  deriving Repr, DecidableEq

/-- `LocalInput`. -/
structure LocalInput where
  serial_id : SerialId
  txin : TxIn
  prev_tx : TransactionU16LenLimited
  prevout_value : Nat
  deriving Repr, DecidableEq

/-- `RemoteInput`. -/
structure RemoteInput where
  serial_id : SerialId
  txin : TxIn
  prev_tx : TransactionU16LenLimited
  prevout_value : Nat
  deriving Repr, DecidableEq

/-- `SharedInput`. -/
structure SharedInput where
  serial_id : SerialId
  txin : TxIn
  prevout_value : Nat
  to_remote_value_satoshis : Nat
  to_local_value_satoshis : Nat
  deriving Repr, DecidableEq

/-- `InteractiveTxInput`: tagged input variants. -/
inductive InteractiveTxInput where
  | Local (input : LocalInput)
  | Remote (input : RemoteInput)
  | Shared (input : SharedInput)
  deriving Repr, DecidableEq

/-- `LocalOutput`. -/
structure LocalOutput where
  serial_id : SerialId
  txout : TxOut
  deriving Repr, DecidableEq

/-- `RemoteOutput`. -/
structure RemoteOutput where
  serial_id : SerialId
  txout : TxOut
  deriving Repr, DecidableEq

/-- `SharedOutput`. -/
structure SharedOutput where
  serial_id : SerialId
  txout : TxOut
  to_remote_value_satoshis : Nat
  to_local_value_satoshis : Nat
  deriving Repr, DecidableEq

/-- `InteractiveTxOutput`: tagged output variants. -/
inductive InteractiveTxOutput where
  | Local (output : LocalOutput)
  | Remote (output : RemoteOutput)
  | Shared (output : SharedOutput)
  deriving Repr, DecidableEq

/-- `InteractiveTxInput::txin` (per-variant projection). -/
def InteractiveTxInput.txin : InteractiveTxInput → TxIn
  | .Local input => input.txin
  | .Remote input => input.txin
  | .Shared input => input.txin

/-- `InteractiveTxOutput::txout` (per-variant projection). -/
def InteractiveTxOutput.txout : InteractiveTxOutput → TxOut
  | .Local output => output.txout
  | .Remote output => output.txout
  | .Shared output => output.txout

/-- `InteractiveTxOutput::value`. -/
def InteractiveTxOutput.value (o : InteractiveTxOutput) : Nat := o.txout.value

/-- Lookup in a serial-id-keyed table (models `HashMap::get`). -/
def lookupKey {α : Type} (k : SerialId) (l : List (SerialId × α)) : Option α :=
  (l.find? (fun p => p.1 == k)).map (fun p => p.2)

/-- Insert-or-replace in a serial-id-keyed table (models `HashMap::insert`). -/
def insertKey {α : Type} (k : SerialId) (v : α) (l : List (SerialId × α)) :
    List (SerialId × α) :=
  if l.any (fun p => p.1 == k) then
    l.map (fun p => if p.1 == k then (k, v) else p)
  else l ++ [(k, v)]

/-- Remove a key from a serial-id-keyed table (models `HashMap::remove`). -/
def eraseKey {α : Type} (k : SerialId) (l : List (SerialId × α)) :
    List (SerialId × α) :=
  l.filter (fun p => p.1 != k)

/-- Insert into the prevout dedup set (models `HashSet::insert`). -/
def insertOutpoint (o : OutPoint) (s : List OutPoint) : List OutPoint :=
  if o ∈ s then s else s ++ [o]

/-- `NegotiationContext`: the accumulated, validated negotiation data. -/
structure NegotiationContext where
  holder_is_initiator : Bool
  received_tx_add_input_count : Nat
  received_tx_add_output_count : Nat
  shared_funding_input : Option SharedFundingInput
  local_contribution_satoshis : Int
  remote_contribution_satoshis : Int
  new_funding_output : TxOut
  inputs : List (SerialId × InteractiveTxInput)
  prevtx_outpoints : List OutPoint
  outputs : List (SerialId × InteractiveTxOutput)
  tx_locktime : Nat
  feerate_sat_per_kw : Nat
  deriving Repr, DecidableEq

/-- `funding_output_remote_value_satoshis`: the counterparty's share of the
shared input adjusted by their signed contribution (saturating). -/
def NegotiationContext.funding_output_remote_value_satoshis
    (ctx : NegotiationContext) : Nat :=
  let remote_shared_input_value :=
    (ctx.shared_funding_input.map (fun i => i.to_remote_value_satoshis)).getD 0
  if ctx.remote_contribution_satoshis < 0 then
    remote_shared_input_value - satAbsU64 ctx.remote_contribution_satoshis
  else
    satAdd64 remote_shared_input_value (satAbsU64 ctx.remote_contribution_satoshis)

/-- `funding_output_local_value_satoshis`: the holder's share of the shared
input adjusted by their signed contribution (saturating). -/
def NegotiationContext.funding_output_local_value_satoshis
    (ctx : NegotiationContext) : Nat :=
  let local_shared_input_value :=
    (ctx.shared_funding_input.map (fun i => i.to_local_value_satoshis)).getD 0
  if ctx.local_contribution_satoshis < 0 then
    local_shared_input_value - satAbsU64 ctx.local_contribution_satoshis
  else
    satAdd64 local_shared_input_value (satAbsU64 ctx.local_contribution_satoshis)

/-- `is_serial_id_valid_for_counterparty`: a received serial id's parity must
match the counterparty's role. -/
def NegotiationContext.is_serial_id_valid_for_counterparty
    (ctx : NegotiationContext) (serial_id : SerialId) : Bool :=
  ctx.holder_is_initiator == serial_id.is_for_non_initiator

/-- Continuation of `received_tx_add_input` after prevout resolution: the
serial-id uniqueness check (`inputs.entry`), shared/remote tagging, the
entry insertion, and the final unconditional dedup-set insertion. -/
def NegotiationContext.received_add_input_entry (ctx : NegotiationContext)
    (msg : TxAddInput) (txid : Nat) : Except AbortReason NegotiationContext :=
  let prev_outpoint := OutPoint.mk txid msg.prevtx_out
  match lookupKey msg.serial_id ctx.inputs with
  | some _ => .error .DuplicateSerialId
  | none =>
    let txin : TxIn := { previous_output := prev_outpoint, sequence := msg.sequence }
    let vout := txin.previous_output.vout
    if (msg.shared_input_txid.bind (fun t =>
        ctx.shared_funding_input.map
          (fun input => t == input.txin.previous_output.txid))).getD false then
      let input := InteractiveTxInput.Shared {
        serial_id := msg.serial_id
        txin := txin
        prevout_value :=
          (ctx.shared_funding_input.map (fun i => i.txout.value)).getD 0
        to_remote_value_satoshis :=
          (ctx.shared_funding_input.map (fun i => i.to_remote_value_satoshis)).getD 0
        to_local_value_satoshis :=
          (ctx.shared_funding_input.map (fun i => i.to_local_value_satoshis)).getD 0 }
      .ok { ctx with
        inputs := insertKey msg.serial_id input ctx.inputs
        prevtx_outpoints := insertOutpoint prev_outpoint ctx.prevtx_outpoints }
    else
      match msg.prevtx.output.get? vout with
      | some txo =>
        let input := InteractiveTxInput.Remote {
          serial_id := msg.serial_id
          txin := txin
          prev_tx := msg.prevtx
          prevout_value := txo.value }
        .ok { ctx with
          inputs := insertKey msg.serial_id input ctx.inputs
          prevtx_outpoints := insertOutpoint prev_outpoint ctx.prevtx_outpoints }
      | none => .error .PrevTxOutInvalid

/-- `received_tx_add_input`: the full validation pipeline for an incoming
`tx_add_input` (parity, message count, sequence, prevout resolution and
dedup, then `received_add_input_entry`). -/
def NegotiationContext.received_tx_add_input (ctx : NegotiationContext)
    (msg : TxAddInput) : Except AbortReason NegotiationContext :=
  if !(ctx.is_serial_id_valid_for_counterparty msg.serial_id) then
    .error .IncorrectSerialIdParity
  else
    let ctx := { ctx with
      received_tx_add_input_count := ctx.received_tx_add_input_count + 1 }
    if ctx.received_tx_add_input_count > MAX_RECEIVED_TX_ADD_INPUT_COUNT then
      .error .ReceivedTooManyTxAddInputs
    else if msg.sequence ≥ 0xFFFFFFFE then
      .error .IncorrectInputSequenceValue
    else
      let txid := msg.shared_input_txid.getD msg.prevtx.txid
      match msg.prevtx.output.get? msg.prevtx_out with
      | some tx_out =>
        if !(is_witness_program tx_out.script_pubkey) then
          .error .PrevTxOutInvalid
        else if OutPoint.mk txid msg.prevtx_out ∈ ctx.prevtx_outpoints then
          .error .PrevTxOutInvalid
        else
          NegotiationContext.received_add_input_entry
            { ctx with prevtx_outpoints :=
                insertOutpoint (OutPoint.mk txid msg.prevtx_out) ctx.prevtx_outpoints }
            msg txid
      | none =>
        if msg.shared_input_txid.isNone then .error .PrevTxOutInvalid
        else NegotiationContext.received_add_input_entry ctx msg txid

/-- `received_tx_remove_input`: parity check, then removal; a missing serial
id fails with `SerialIdUnknown`. -/
def NegotiationContext.received_tx_remove_input (ctx : NegotiationContext)
    (msg : TxRemoveInput) : Except AbortReason NegotiationContext :=
  if !(ctx.is_serial_id_valid_for_counterparty msg.serial_id) then
    .error .IncorrectSerialIdParity
  else
    match lookupKey msg.serial_id ctx.inputs with
    | some _ => .ok { ctx with inputs := eraseKey msg.serial_id ctx.inputs }
    | none => .error .SerialIdUnknown

/-- `received_tx_add_output`: parity, message count, dust, total-supply,
script-form and serial-id checks, then insertion with shared tagging. -/
def NegotiationContext.received_tx_add_output (ctx : NegotiationContext)
    (msg : TxAddOutput) : Except AbortReason NegotiationContext :=
  if !(ctx.is_serial_id_valid_for_counterparty msg.serial_id) then
    .error .IncorrectSerialIdParity
  else
    let ctx := { ctx with
      received_tx_add_output_count := ctx.received_tx_add_output_count + 1 }
    if ctx.received_tx_add_output_count > MAX_RECEIVED_TX_ADD_OUTPUT_COUNT then
      .error .ReceivedTooManyTxAddOutputs
    else if msg.sats < dust_value msg.script then
      .error .BelowDustLimit
    else
      let outputs_value := ctx.outputs.foldl (fun acc p => satAdd64 acc p.2.value) 0
      if satAdd64 outputs_value msg.sats > TOTAL_BITCOIN_SUPPLY_SATOSHIS then
        .error .ExceededMaximumSatsAllowed
      else if !(is_v0_p2wpkh msg.script || is_v0_p2wsh msg.script ||
          (is_witness_program msg.script &&
            ((witness_version msg.script).map (fun v => decide (v ≥ 1))).getD false)) then
        .error .InvalidOutputScript
      else
        let output := if msg.script == ctx.new_funding_output.script_pubkey then
            InteractiveTxOutput.Shared {
              serial_id := msg.serial_id
              txout := { value := msg.sats, script_pubkey := msg.script }
              to_remote_value_satoshis := ctx.funding_output_remote_value_satoshis
              to_local_value_satoshis := ctx.funding_output_local_value_satoshis }
          else
            InteractiveTxOutput.Remote {
              serial_id := msg.serial_id
              txout := { value := msg.sats, script_pubkey := msg.script } }
        match lookupKey msg.serial_id ctx.outputs with
        | some _ => .error .DuplicateSerialId
        | none => .ok { ctx with outputs := insertKey msg.serial_id output ctx.outputs }

/-- `received_tx_remove_output`: parity check, then removal; a missing
serial id fails with `SerialIdUnknown`. -/
def NegotiationContext.received_tx_remove_output (ctx : NegotiationContext)
    (msg : TxRemoveOutput) : Except AbortReason NegotiationContext :=
  if !(ctx.is_serial_id_valid_for_counterparty msg.serial_id) then
    .error .IncorrectSerialIdParity
  else
    match lookupKey msg.serial_id ctx.outputs with
    | some _ => .ok { ctx with outputs := eraseKey msg.serial_id ctx.outputs }
    | none => .error .SerialIdUnknown

/-- `sent_tx_add_input`: records a locally sent `tx_add_input`; enforces
prevout uniqueness and shared tagging but no parity, count or sequence
checks. -/
def NegotiationContext.sent_tx_add_input (ctx : NegotiationContext)
    (msg : TxAddInput) : Except AbortReason NegotiationContext :=
  let txin : TxIn := {
    previous_output := OutPoint.mk msg.prevtx.txid msg.prevtx_out
    sequence := msg.sequence }
  if txin.previous_output ∈ ctx.prevtx_outpoints then
    .error .PrevTxOutInvalid
  else
    let ctx := { ctx with
      prevtx_outpoints := insertOutpoint txin.previous_output ctx.prevtx_outpoints }
    let vout := txin.previous_output.vout
    if msg.shared_input_txid.isSome then
      let input := InteractiveTxInput.Shared {
        serial_id := msg.serial_id
        txin := (ctx.shared_funding_input.map (fun i => i.txin)).getD txin
        prevout_value := (ctx.shared_funding_input.map (fun i => i.txout.value)).getD 0
        to_remote_value_satoshis :=
          (ctx.shared_funding_input.map (fun i => i.to_remote_value_satoshis)).getD 0
        to_local_value_satoshis :=
          (ctx.shared_funding_input.map (fun i => i.to_local_value_satoshis)).getD 0 }
      .ok { ctx with inputs := insertKey msg.serial_id input ctx.inputs }
    else
      match msg.prevtx.output.get? vout with
      | some txo =>
        let input := InteractiveTxInput.Local {
          serial_id := msg.serial_id
          txin := txin
          prev_tx := msg.prevtx
          prevout_value := txo.value }
        .ok { ctx with inputs := insertKey msg.serial_id input ctx.inputs }
      | none => .error .PrevTxOutInvalid

/-- `sent_tx_add_output`: records a locally sent `tx_add_output` with shared
tagging; performs no checks. -/
def NegotiationContext.sent_tx_add_output (ctx : NegotiationContext)
    (msg : TxAddOutput) : Except AbortReason NegotiationContext :=
  let txout : TxOut := { value := msg.sats, script_pubkey := msg.script }
  let output := if msg.script == ctx.new_funding_output.script_pubkey then
      InteractiveTxOutput.Shared {
        serial_id := msg.serial_id
        txout := txout
        to_remote_value_satoshis := ctx.funding_output_remote_value_satoshis
        to_local_value_satoshis := ctx.funding_output_local_value_satoshis }
    else
      InteractiveTxOutput.Local { serial_id := msg.serial_id, txout := txout }
  .ok { ctx with outputs := insertKey msg.serial_id output ctx.outputs }

/-- `sent_tx_remove_input`: unconditionally removes and succeeds. -/
def NegotiationContext.sent_tx_remove_input (ctx : NegotiationContext)
    (msg : TxRemoveInput) : Except AbortReason NegotiationContext :=
  .ok { ctx with inputs := eraseKey msg.serial_id ctx.inputs }

/-- `sent_tx_remove_output`: unconditionally removes and succeeds. -/
def NegotiationContext.sent_tx_remove_output (ctx : NegotiationContext)
    (msg : TxRemoveOutput) : Except AbortReason NegotiationContext :=
  .ok { ctx with outputs := eraseKey msg.serial_id ctx.outputs }

/-- `counterparty_inputs_contributed`: the inputs whose serial id parity
matches the counterparty's role. -/
def NegotiationContext.counterparty_inputs_contributed
    (ctx : NegotiationContext) : List InteractiveTxInput :=
  (ctx.inputs.filter (fun p => ctx.is_serial_id_valid_for_counterparty p.1)).map
    (fun p => p.2)

/-- `counterparty_outputs_contributed`. -/
def NegotiationContext.counterparty_outputs_contributed
    (ctx : NegotiationContext) : List InteractiveTxOutput :=
  (ctx.outputs.filter (fun p => ctx.is_serial_id_valid_for_counterparty p.1)).map
    (fun p => p.2)

/-- The value `build_transaction` credits a counterparty input with:
its prevout value, or the to-remote share for the shared input. -/
def counterpartyInputValue : InteractiveTxInput → Nat
  | .Local input => input.prevout_value
  | .Remote input => input.prevout_value
  | .Shared input => input.to_remote_value_satoshis

/-- The value `build_transaction` debits a counterparty output with:
its value, or the to-remote share for the shared output. -/
def counterpartyOutputValue : InteractiveTxOutput → Nat
  | .Local output => output.txout.value
  | .Remote output => output.txout.value
  | .Shared output => output.to_remote_value_satoshis

/-- The counterparty's total value in at `build` time (saturating sum). -/
def NegotiationContext.counterparty_value_in (ctx : NegotiationContext) : Nat :=
  ctx.counterparty_inputs_contributed.foldl
    (fun acc i => satAdd64 acc (counterpartyInputValue i)) 0

/-- The counterparty's total value out at `build` time (saturating sum). -/
def NegotiationContext.counterparty_value_out (ctx : NegotiationContext) : Nat :=
  ctx.counterparty_outputs_contributed.foldl
    (fun acc o => satAdd64 acc (counterpartyOutputValue o)) 0

/-- `INPUT_WEIGHT` as in `build_transaction`. -/
def INPUT_WEIGHT : Nat := BASE_INPUT_WEIGHT + EMPTY_SCRIPT_SIG_WEIGHT

/-- The counterparty's contributed weight at `build` time: each of their
outputs weighs `(8 + consensus-encoded script length) · 4`, each of their
inputs weighs `INPUT_WEIGHT`. -/
def NegotiationContext.counterparty_weight_contributed
    (ctx : NegotiationContext) : Nat :=
  (ctx.counterparty_outputs_contributed.map
    (fun output => (8 + consensusEncodedLen output.txout.script_pubkey)
      * WITNESS_SCALE_FACTOR)).sum
  + ctx.counterparty_inputs_contributed.length * INPUT_WEIGHT

/-- The counterparty's actual fee contribution: value in minus value out
(u64 `saturating_sub`, which is Nat subtraction). -/
def NegotiationContext.counterparty_fees_contributed
    (ctx : NegotiationContext) : Nat :=
  ctx.counterparty_value_in - ctx.counterparty_value_out

/-- Weight of the transaction fields shared by both parties: version,
locktime, input count, output count (scaled) plus segwit marker and flag. -/
def tx_common_fields_weight : Nat :=
  (4 + 4 + 1 + 1) * WITNESS_SCALE_FACTOR + 2

/-- The fee `build_transaction` requires from the counterparty: the fee for
their contributed weight, plus — exactly when the holder is not the
initiator, i.e. the counterparty is — the fee for the common fields. -/
def NegotiationContext.required_counterparty_contribution_fee
    (ctx : NegotiationContext) : Nat :=
  let base := fee_for_weight ctx.feerate_sat_per_kw ctx.counterparty_weight_contributed
  if !ctx.holder_is_initiator then
    base + fee_for_weight ctx.feerate_sat_per_kw tx_common_fields_weight
  else base

/-- The transaction `build_transaction` assembles: version 2, the negotiated
locktime, and the input/output tables sorted ascending by serial id. -/
def NegotiationContext.assembled_tx (ctx : NegotiationContext) : Transaction :=
  let inputs := List.insertionSort (fun a b => a.1 ≤ b.1) ctx.inputs
  let outputs := List.insertionSort (fun a b => a.1 ≤ b.1) ctx.outputs
  { version := 2
    lock_time := ctx.tx_locktime
    input := inputs.map (fun p => p.2.txin)
    output := outputs.map (fun p => p.2.txout) }

/-- `build_transaction`: terminal validation — counterparty balance, table
sizes, counterparty fees, then assembly and the standardness weight limit. -/
def NegotiationContext.build_transaction (ctx : NegotiationContext) :
    Except AbortReason Transaction :=
  if ctx.counterparty_value_in < ctx.counterparty_value_out then
    .error .OutputsValueExceedsInputsValue
  else if ctx.inputs.length > MAX_INPUTS_OUTPUTS_COUNT
      ∨ ctx.outputs.length > MAX_INPUTS_OUTPUTS_COUNT then
    .error .ExceededNumberOfInputsOrOutputs
  else if ctx.counterparty_fees_contributed
      < ctx.required_counterparty_contribution_fee then
    .error .InsufficientFees
  else
    let tx_to_validate := ctx.assembled_tx
    if txWeight tx_to_validate > MAX_STANDARD_TX_WEIGHT then
      .error .TransactionTooLarge
    else .ok tx_to_validate

/-- Follows the words of the spec (claim C2), for comparison with the
source-derived `counterparty_weight_contributed`: a weighted output sum of
`(8 + len(script_pubkey)) · 4` — the raw script length, without the
compact-size prefix the source's `consensus_encode` also counts — plus
`INPUT_WEIGHT` per input. -/
def NegotiationContext.claimed_counterparty_weight
    (ctx : NegotiationContext) : Nat :=
  (ctx.counterparty_outputs_contributed.map
    (fun output => (8 + output.txout.script_pubkey.length)
      * WITNESS_SCALE_FACTOR)).sum
  + ctx.counterparty_inputs_contributed.length * INPUT_WEIGHT

/-- `u64::from_be_bytes`: big-endian interpretation of a byte list. -/
def u64_from_be_bytes (bs : List Nat) : Nat :=
  bs.foldl (fun acc b => acc * 256 + b) 0

/-- `generate_holder_serial_id`: the first 8 of the 32 entropy bytes,
big-endian; the low bit is flipped when its parity does not match the
holder's role. -/
def generate_holder_serial_id (rand_bytes : List Nat) (is_initiator : Bool) :
    SerialId :=
  let serial_id := u64_from_be_bytes (rand_bytes.take 8)
  if SerialId.is_for_initiator serial_id != is_initiator then serial_id ^^^ 1
  else serial_id

/-- The `StateMachine` over negotiation states. -/
inductive StateMachine where
  | Indeterminate
  | SentChangeMsg (ctx : NegotiationContext)
  | ReceivedChangeMsg (ctx : NegotiationContext)
  | SentTxComplete (ctx : NegotiationContext)
  | ReceivedTxComplete (ctx : NegotiationContext)
  | NegotiationComplete (tx : Transaction)
  | NegotiationAborted (reason : AbortReason)
  deriving Repr, DecidableEq

/-- Runs a context mutator as a state-machine step: `Ok` advances to the
state built by `next`, `Err` moves to `NegotiationAborted`. -/
def stepContext (r : Except AbortReason NegotiationContext)
    (next : NegotiationContext → StateMachine) : StateMachine :=
  match r with
  | .ok ctx => next ctx
  | .error reason => .NegotiationAborted reason

/-- `StateMachine::received_tx_add_input`: legal from `SentChangeMsg` and
`SentTxComplete`; every other state aborts with
`UnexpectedCounterpartyMessage`. -/
def StateMachine.received_tx_add_input (s : StateMachine) (msg : TxAddInput) :
    StateMachine :=
  match s with
  | .SentChangeMsg ctx => stepContext (ctx.received_tx_add_input msg) .ReceivedChangeMsg
  | .SentTxComplete ctx => stepContext (ctx.received_tx_add_input msg) .ReceivedChangeMsg
  | _ => .NegotiationAborted .UnexpectedCounterpartyMessage

/-- `StateMachine::received_tx_remove_input`. -/
def StateMachine.received_tx_remove_input (s : StateMachine)
    (msg : TxRemoveInput) : StateMachine :=
  match s with
  | .SentChangeMsg ctx => stepContext (ctx.received_tx_remove_input msg) .ReceivedChangeMsg
  | .SentTxComplete ctx => stepContext (ctx.received_tx_remove_input msg) .ReceivedChangeMsg
  | _ => .NegotiationAborted .UnexpectedCounterpartyMessage

/-- `StateMachine::received_tx_add_output`. -/
def StateMachine.received_tx_add_output (s : StateMachine)
    (msg : TxAddOutput) : StateMachine :=
  match s with
  | .SentChangeMsg ctx => stepContext (ctx.received_tx_add_output msg) .ReceivedChangeMsg
  | .SentTxComplete ctx => stepContext (ctx.received_tx_add_output msg) .ReceivedChangeMsg
  | _ => .NegotiationAborted .UnexpectedCounterpartyMessage

/-- `StateMachine::received_tx_remove_output`. -/
def StateMachine.received_tx_remove_output (s : StateMachine)
    (msg : TxRemoveOutput) : StateMachine :=
  match s with
  | .SentChangeMsg ctx => stepContext (ctx.received_tx_remove_output msg) .ReceivedChangeMsg
  | .SentTxComplete ctx => stepContext (ctx.received_tx_remove_output msg) .ReceivedChangeMsg
  | _ => .NegotiationAborted .UnexpectedCounterpartyMessage

/-- `StateMachine::sent_tx_add_input`: legal from `ReceivedChangeMsg` and
`ReceivedTxComplete`. -/
def StateMachine.sent_tx_add_input (s : StateMachine) (msg : TxAddInput) :
    StateMachine :=
  match s with
  | .ReceivedChangeMsg ctx => stepContext (ctx.sent_tx_add_input msg) .SentChangeMsg
  | .ReceivedTxComplete ctx => stepContext (ctx.sent_tx_add_input msg) .SentChangeMsg
  | _ => .NegotiationAborted .UnexpectedCounterpartyMessage

/-- `StateMachine::sent_tx_remove_input`. -/
def StateMachine.sent_tx_remove_input (s : StateMachine) (msg : TxRemoveInput) :
    StateMachine :=
  match s with
  | .ReceivedChangeMsg ctx => stepContext (ctx.sent_tx_remove_input msg) .SentChangeMsg
  | .ReceivedTxComplete ctx => stepContext (ctx.sent_tx_remove_input msg) .SentChangeMsg
  | _ => .NegotiationAborted .UnexpectedCounterpartyMessage

/-- `StateMachine::sent_tx_add_output`. -/
def StateMachine.sent_tx_add_output (s : StateMachine) (msg : TxAddOutput) :
    StateMachine :=
  match s with
  | .ReceivedChangeMsg ctx => stepContext (ctx.sent_tx_add_output msg) .SentChangeMsg
  | .ReceivedTxComplete ctx => stepContext (ctx.sent_tx_add_output msg) .SentChangeMsg
  | _ => .NegotiationAborted .UnexpectedCounterpartyMessage

/-- `StateMachine::sent_tx_remove_output`. -/
def StateMachine.sent_tx_remove_output (s : StateMachine)
    (msg : TxRemoveOutput) : StateMachine :=
  match s with
  | .ReceivedChangeMsg ctx => stepContext (ctx.sent_tx_remove_output msg) .SentChangeMsg
  | .ReceivedTxComplete ctx => stepContext (ctx.sent_tx_remove_output msg) .SentChangeMsg
  | _ => .NegotiationAborted .UnexpectedCounterpartyMessage

/-- `StateMachine::sent_tx_complete`: from `ReceivedChangeMsg` it moves to
`SentTxComplete`; from `ReceivedTxComplete` it builds the transaction and
completes (or aborts with the build failure). -/
def StateMachine.sent_tx_complete (s : StateMachine) : StateMachine :=
  match s with
  | .ReceivedChangeMsg ctx => .SentTxComplete ctx
  | .ReceivedTxComplete ctx =>
    match ctx.build_transaction with
    | .ok tx => .NegotiationComplete tx
    | .error reason => .NegotiationAborted reason
  | _ => .NegotiationAborted .UnexpectedCounterpartyMessage

/-- `StateMachine::received_tx_complete`: from `SentChangeMsg` it moves to
`ReceivedTxComplete`; from `SentTxComplete` it builds and completes. -/
def StateMachine.received_tx_complete (s : StateMachine) : StateMachine :=
  match s with
  | .SentChangeMsg ctx => .ReceivedTxComplete ctx
  | .SentTxComplete ctx =>
    match ctx.build_transaction with
    | .ok tx => .NegotiationComplete tx
    | .error reason => .NegotiationAborted reason
  | _ => .NegotiationAborted .UnexpectedCounterpartyMessage

/-- One state-machine action: any received or sent message of any kind. -/
inductive Event where
  | recvAddInput (msg : TxAddInput)
  | recvRemoveInput (msg : TxRemoveInput)
  | recvAddOutput (msg : TxAddOutput)
  | recvRemoveOutput (msg : TxRemoveOutput)
  | recvComplete
  | sendAddInput (msg : TxAddInput)
  | sendRemoveInput (msg : TxRemoveInput)
  | sendAddOutput (msg : TxAddOutput)
  | sendRemoveOutput (msg : TxRemoveOutput)
  | sendComplete
  deriving Repr

/-- Dispatches one event to the corresponding state-machine transition. -/
def StateMachine.applyEvent (s : StateMachine) : Event → StateMachine
  | .recvAddInput msg => s.received_tx_add_input msg
  | .recvRemoveInput msg => s.received_tx_remove_input msg
  | .recvAddOutput msg => s.received_tx_add_output msg
  | .recvRemoveOutput msg => s.received_tx_remove_output msg
  | .recvComplete => s.received_tx_complete
  | .sendAddInput msg => s.sent_tx_add_input msg
  | .sendRemoveInput msg => s.sent_tx_remove_input msg
  | .sendAddOutput msg => s.sent_tx_add_output msg
  | .sendRemoveOutput msg => s.sent_tx_remove_output msg
  | .sendComplete => s.sent_tx_complete

/-- Whether a state is the terminal `NegotiationAborted`. -/
def StateMachine.isAborted : StateMachine → Bool
  | .NegotiationAborted _ => true
  | _ => false

/-- `do_state_transition`: runs one transition, stores the new state, and
reports `Err` to the caller exactly when the new state is aborted. -/
def do_state_transition (s : StateMachine) (e : Event) :
    StateMachine × Except AbortReason Unit :=
  let s' := s.applyEvent e
  (s', match s' with
       | .NegotiationAborted reason => .error reason
       | _ => .ok ())

/-- XOR with 1 leaves all bits above the lowest unchanged. -/
theorem xor_one_div_two (n : Nat) : (n ^^^ 1) / 2 = n / 2 := by
  apply Nat.eq_of_testBit_eq
  intro i
  rw [← Nat.testBit_succ, ← Nat.testBit_succ, Nat.testBit_xor]
  have h2 : Nat.testBit 1 (i + 1) = false := by
    rw [Nat.testBit_succ]
    simp
  rw [h2, Bool.xor_false]

/-- XOR with 1 flips the lowest bit. -/
theorem xor_one_mod_two (n : Nat) : (n ^^^ 1) % 2 = 1 - n % 2 := by
  have h0 : Nat.testBit (n ^^^ 1) 0 = ((Nat.testBit n 0).xor (Nat.testBit 1 0)) :=
    Nat.testBit_xor n 1 0
  rw [Nat.testBit_zero, Nat.testBit_zero, Nat.testBit_zero] at h0
  rcases Nat.mod_two_eq_zero_or_one n with h | h <;>
    rcases Nat.mod_two_eq_zero_or_one (n ^^^ 1) with h' | h' <;>
      simp [h, h'] at h0 ⊢

/-- An absent key means erasure is the identity. -/
theorem eraseKey_of_lookup_none {α : Type} (k : SerialId)
    (l : List (SerialId × α)) (h : lookupKey k l = none) : eraseKey k l = l := by
  rw [eraseKey, List.filter_eq_self]
  intro p hp
  rw [lookupKey, Option.map_eq_none'] at h
  have := List.find?_eq_none.mp h p hp
  simpa using this

/-- A minimal initiator-side context (fresh negotiation, feerate 0,
locktime 1337), used to instantiate theorems at concrete inputs. -/
def emptyCtx : NegotiationContext where
  holder_is_initiator := true
  received_tx_add_input_count := 0
  received_tx_add_output_count := 0
  shared_funding_input := none
  local_contribution_satoshis := 0
  remote_contribution_satoshis := 0
  new_funding_output := { value := 0, script_pubkey := [] }
  inputs := []
  prevtx_outpoints := []
  outputs := []
  tx_locktime := 1337
  feerate_sat_per_kw := 0

/-- Claim C10: `sent_tx_remove_input` and `sent_tx_remove_output` succeed on
every message — they only erase the table entry for the serial id, perform
no parity check, and never fail with `SerialIdUnknown`; when the serial id
is absent the context is returned unchanged. -/
theorem sent_remove_always_ok (ctx : NegotiationContext)
    (m1 : TxRemoveInput) (m2 : TxRemoveOutput) :
    ctx.sent_tx_remove_input m1 =
      .ok { ctx with inputs := eraseKey m1.serial_id ctx.inputs } ∧
    ctx.sent_tx_remove_output m2 =
      .ok { ctx with outputs := eraseKey m2.serial_id ctx.outputs } ∧
    (lookupKey m1.serial_id ctx.inputs = none →
      ctx.sent_tx_remove_input m1 = .ok ctx) ∧
    (lookupKey m2.serial_id ctx.outputs = none →
      ctx.sent_tx_remove_output m2 = .ok ctx) := by
  refine ⟨rfl, rfl, fun h => ?_, fun h => ?_⟩
  · rw [NegotiationContext.sent_tx_remove_input, eraseKey_of_lookup_none _ _ h]
  · rw [NegotiationContext.sent_tx_remove_output, eraseKey_of_lookup_none _ _ h]

/-- Witness for claim C10: the removal messages with serial id 5 on the
empty context succeed and leave it unchanged. -/
theorem sent_remove_always_ok_witness :
    emptyCtx.sent_tx_remove_input { serial_id := 5 } = .ok emptyCtx ∧
    emptyCtx.sent_tx_remove_output { serial_id := 5 } = .ok emptyCtx := by
  have h := sent_remove_always_ok emptyCtx { serial_id := 5 } { serial_id := 5 }
  exact ⟨h.2.2.1 (by rfl), h.2.2.2 (by rfl)⟩

/-- Claim C3: the common-fields weight is (4 version + 4 locktime + 1 input
count + 1 output count) · 4 + 2 segwit marker and flag = 42 weight units,
and its fee is added to the required counterparty contribution exactly when
`holder_is_initiator` is false. -/
theorem required_fee_adds_common_fields_iff_non_initiator
    (ctx : NegotiationContext) :
    tx_common_fields_weight = 42 ∧
    ctx.required_counterparty_contribution_fee =
      fee_for_weight ctx.feerate_sat_per_kw ctx.counterparty_weight_contributed +
        (if ctx.holder_is_initiator then 0
         else fee_for_weight ctx.feerate_sat_per_kw tx_common_fields_weight) := by
  refine ⟨rfl, ?_⟩
  rw [NegotiationContext.required_counterparty_contribution_fee]
  cases h : ctx.holder_is_initiator <;> simp [h]

/-- Claim C4: `build_transaction` fails with `OutputsValueExceedsInputsValue`
exactly when the counterparty's total value in is strictly below their total
value out; the unconditional equivalence shows this check precedes the
count check and the fee check (those never mask it). -/
theorem build_outputs_value_exceeds_iff (ctx : NegotiationContext) :
    ctx.build_transaction = .error .OutputsValueExceedsInputsValue ↔
      ctx.counterparty_value_in < ctx.counterparty_value_out := by
  rw [NegotiationContext.build_transaction]
  split
  · simp_all
  · split
    · simp_all
    · split
      · simp_all
      · simp only []
        split <;> simp_all

/-- Forcing the low bit: flipping it when the parity is wrong yields the
high bits unchanged with the low bit set by the target parity. -/
theorem force_parity_bit (n : Nat) (b : Bool) :
    (if SerialId.is_for_initiator n != b then n ^^^ 1 else n) =
      2 * (n / 2) + (if b then 0 else 1) := by
  have hdm := Nat.div_add_mod n 2
  have hx1 := xor_one_div_two n
  have hx2 := xor_one_mod_two n
  have hdm2 := Nat.div_add_mod (n ^^^ 1) 2
  rcases Nat.mod_two_eq_zero_or_one n with h | h <;> cases b <;>
    simp [SerialId.is_for_initiator, h] <;> omega

/-- Claim C7: the holder's serial id is the first 8 entropy bytes read
big-endian with the low bit forced to the holder's parity, so it is even
exactly for the initiator and odd exactly for the non-initiator. -/
theorem generate_holder_serial_id_parity (rand_bytes : List Nat)
    (is_initiator : Bool) :
    generate_holder_serial_id rand_bytes is_initiator =
      2 * (u64_from_be_bytes (rand_bytes.take 8) / 2) +
        (if is_initiator then 0 else 1) ∧
    generate_holder_serial_id rand_bytes is_initiator % 2 =
      (if is_initiator then 0 else 1) := by
  have hmain : generate_holder_serial_id rand_bytes is_initiator =
      2 * (u64_from_be_bytes (rand_bytes.take 8) / 2) +
        (if is_initiator then 0 else 1) := by
    simp only [generate_holder_serial_id]
    exact force_parity_bit _ _
  refine ⟨hmain, ?_⟩
  rw [hmain]
  cases is_initiator <;> simp [Nat.mul_add_mod]

/-- Any single transition out of an aborted state stays aborted. -/
theorem applyEvent_aborted (s : StateMachine) (e : Event)
    (h : s.isAborted = true) : (s.applyEvent e).isAborted = true := by
  rcases s with _ | ctx | ctx | ctx | ctx | tx | r <;> simp [StateMachine.isAborted] at h ⊢
  cases e <;> rfl

/-- Claim C8: from an `Aborted` state, every transition of every kind
(received or sent, any message) yields an aborted state and reports an
error to the caller; no event sequence from an aborted state ever reaches
`NegotiationComplete` or any non-aborted state. -/
theorem aborted_state_is_absorbing (s : StateMachine) (es : List Event)
    (h : s.isAborted = true) :
    (es.foldl StateMachine.applyEvent s).isAborted = true ∧
    (∀ e : Event, ∃ r : AbortReason,
      (do_state_transition s e).2 = .error r ∧
      ((do_state_transition s e).1).isAborted = true) ∧
    (∀ tx : Transaction,
      es.foldl StateMachine.applyEvent s ≠ .NegotiationComplete tx) := by
  have hfold : ∀ (l : List Event) (t : StateMachine), t.isAborted = true →
      (l.foldl StateMachine.applyEvent t).isAborted = true := by
    intro l
    induction l with
    | nil => intro t ht; exact ht
    | cons e l ih => intro t ht; exact ih _ (applyEvent_aborted t e ht)
  refine ⟨hfold es s h, fun e => ?_, fun tx hc => ?_⟩
  · have ha := applyEvent_aborted s e h
    rw [do_state_transition]
    rcases he : s.applyEvent e with _ | ctx | ctx | ctx | ctx | tx | r <;>
      rw [he] at ha <;> simp [StateMachine.isAborted] at ha ⊢
  · have := hfold es s h
    rw [hc] at this
    simp [StateMachine.isAborted] at this

/-- Witness for claim C8: from a concretely aborted state, a received
`tx_complete` followed by a sent `tx_complete` stays aborted, the immediate
transition reports an error, and the result is never complete. -/
theorem aborted_state_is_absorbing_witness :
    ((([Event.recvComplete, Event.sendComplete] : List Event).foldl
      StateMachine.applyEvent
      (.NegotiationAborted .InvalidTx)).isAborted = true) ∧
    (∃ r : AbortReason,
      (do_state_transition (.NegotiationAborted .InvalidTx) .recvComplete).2 =
        .error r ∧
      ((do_state_transition (.NegotiationAborted .InvalidTx) .recvComplete).1).isAborted
        = true) := by
  have h := aborted_state_is_absorbing (.NegotiationAborted .InvalidTx)
    [Event.recvComplete, Event.sendComplete] (by rfl)
  exact ⟨h.1, h.2.1 .recvComplete⟩

/-- A left fold of saturating additions is the capped plain sum. -/
theorem foldl_satAdd64_eq {α : Type} (f : α → Nat) (l : List α) (a : Nat)
    (ha : a ≤ U64_MAX) :
    l.foldl (fun acc x => satAdd64 acc (f x)) a = min (a + (l.map f).sum) U64_MAX := by
  induction l generalizing a with
  | nil => simpa using ha
  | cons x xs ih =>
    simp only [List.foldl_cons, List.map_cons, List.sum_cons]
    rw [ih (satAdd64 a (f x)) (by unfold satAdd64; omega)]
    unfold satAdd64
    omega

/-- The saturating running total exceeds the supply exactly when the plain
sum does (the supply is far below the u64 cap). -/
theorem satSum_gt_supply_iff (l : List (SerialId × InteractiveTxOutput))
    (sats : Nat) :
    (satAdd64 (l.foldl (fun acc p => satAdd64 acc p.2.value) 0) sats
        > TOTAL_BITCOIN_SUPPLY_SATOSHIS) ↔
      ((l.map (fun p => p.2.value)).sum + sats > TOTAL_BITCOIN_SUPPLY_SATOSHIS) := by
  rw [foldl_satAdd64_eq (fun p => p.2.value) l 0 (by unfold U64_MAX; omega)]
  have hM : U64_MAX = 18446744073709551615 := by norm_num [U64_MAX]
  unfold satAdd64 TOTAL_BITCOIN_SUPPLY_SATOSHIS
  rw [hM]
  omega

/-- Claim C6: after the parity and counter checks pass,
`received_tx_add_output` fails with `BelowDustLimit` exactly when the value
is below the script's dust value; otherwise with
`ExceededMaximumSatsAllowed` exactly when the previous outputs' total plus
this value exceeds the total satoshi supply; otherwise with
`InvalidOutputScript` exactly when the script is neither P2WPKH v0 nor
P2WSH v0 nor a witness program of version at least 1 — in that order. -/
theorem received_tx_add_output_check_order (ctx : NegotiationContext)
    (msg : TxAddOutput)
    (hpar : ctx.is_serial_id_valid_for_counterparty msg.serial_id = true)
    (hcount : ctx.received_tx_add_output_count + 1 ≤ MAX_RECEIVED_TX_ADD_OUTPUT_COUNT) :
    (ctx.received_tx_add_output msg = .error .BelowDustLimit ↔
      msg.sats < dust_value msg.script) ∧
    (dust_value msg.script ≤ msg.sats →
      (ctx.received_tx_add_output msg = .error .ExceededMaximumSatsAllowed ↔
        (ctx.outputs.map (fun p => p.2.value)).sum + msg.sats
          > TOTAL_BITCOIN_SUPPLY_SATOSHIS)) ∧
    (dust_value msg.script ≤ msg.sats →
      (ctx.outputs.map (fun p => p.2.value)).sum + msg.sats
        ≤ TOTAL_BITCOIN_SUPPLY_SATOSHIS →
      (ctx.received_tx_add_output msg = .error .InvalidOutputScript ↔
        (is_v0_p2wpkh msg.script || is_v0_p2wsh msg.script ||
          (is_witness_program msg.script &&
            ((witness_version msg.script).map (fun v => decide (v ≥ 1))).getD false))
          = false)) := by
  have hkey := satSum_gt_supply_iff ctx.outputs msg.sats
  rw [NegotiationContext.received_tx_add_output, hpar]
  simp only [Bool.not_true, Bool.false_eq_true, if_false]
  rw [if_neg (by unfold MAX_RECEIVED_TX_ADD_OUTPUT_COUNT at hcount ⊢; omega)]
  by_cases hdust : msg.sats < dust_value msg.script
  · rw [if_pos hdust]
    exact ⟨by simp [hdust], fun h => absurd hdust (by omega),
      fun h _ => absurd hdust (by omega)⟩
  · rw [if_neg hdust]
    by_cases hsum : satAdd64 (ctx.outputs.foldl (fun acc p => satAdd64 acc p.2.value) 0)
        msg.sats > TOTAL_BITCOIN_SUPPLY_SATOSHIS
    · rw [if_pos hsum]
      refine ⟨by simp [hdust], fun _ => by simpa using hkey.mp hsum,
        fun _ hle => absurd (hkey.mp hsum) (by omega)⟩
    · rw [if_neg hsum]
      by_cases hscript : (is_v0_p2wpkh msg.script || is_v0_p2wsh msg.script ||
          (is_witness_program msg.script &&
            ((witness_version msg.script).map (fun v => decide (v ≥ 1))).getD false)) = false
      · rw [if_pos (by simp [hscript])]
        refine ⟨by simp [hdust], fun _ => ?_, fun _ _ => by simp [hscript]⟩
        constructor
        · intro hc
          cases hc
        · intro hgt
          exact absurd (hkey.mpr hgt) hsum
      · rw [if_neg (by simpa using hscript)]
        refine ⟨?_, fun _ => ?_, fun _ _ => ?_⟩
        · constructor
          · intro hc
            rcases hlk : lookupKey msg.serial_id ctx.outputs with _ | v <;>
              rw [hlk] at hc <;> simp at hc
          · intro hlt
            exact absurd hlt hdust
        · constructor
          · intro hc
            rcases hlk : lookupKey msg.serial_id ctx.outputs with _ | v <;>
              rw [hlk] at hc <;> simp at hc
          · intro hgt
            exact absurd (hkey.mpr hgt) hsum
        · constructor
          · intro hc
            rcases hlk : lookupKey msg.serial_id ctx.outputs with _ | v <;>
              rw [hlk] at hc <;> simp at hc
          · intro hfalse
            exact absurd hfalse hscript

/-- Witness for claim C6: on the fresh initiator context, a counterparty
output of 1 sat with a P2WPKH script is rejected below the dust limit. -/
theorem received_tx_add_output_check_order_witness :
    emptyCtx.received_tx_add_output
      { serial_id := 1, sats := 1, script := 0 :: 20 :: List.replicate 20 7 } =
        .error .BelowDustLimit := by
  have h := received_tx_add_output_check_order emptyCtx
    { serial_id := 1, sats := 1, script := 0 :: 20 :: List.replicate 20 7 }
    (by decide) (by decide)
  exact h.1.mpr (by decide)

/-- The claimed RBF invariant on the input table: no recorded input carries
a sequence of 0xFFFFFFFE or 0xFFFFFFFF. -/
def seq_invariant_holds (ctx : NegotiationContext) : Bool :=
  ctx.inputs.all (fun p => decide (p.2.txin.sequence < 0xFFFFFFFE))

/-- Insert-or-replace preserves a pointwise property of the values. -/
theorem all_insertKey {α : Type} (pred : α → Bool) (k : SerialId) (v : α)
    (l : List (SerialId × α)) (hl : l.all (fun p => pred p.2) = true)
    (hv : pred v = true) :
    (insertKey k v l).all (fun p => pred p.2) = true := by
  rw [insertKey]
  split
  · rw [List.all_eq_true] at hl ⊢
    intro p hp
    rw [List.mem_map] at hp
    obtain ⟨q, hq, rfl⟩ := hp
    by_cases h : q.1 == k
    · simp only [h, if_true]
      exact hv
    · simp only [h, Bool.false_eq_true, if_false]
      exact hl q hq
  · rw [List.all_eq_true] at hl ⊢
    intro p hp
    rcases List.mem_append.mp hp with h | h
    · exact hl p h
    · rcases List.mem_singleton.mp h with rfl
      exact hv

/-- Erasure preserves a pointwise property of the values. -/
theorem all_eraseKey {α : Type} (pred : α → Bool) (k : SerialId)
    (l : List (SerialId × α)) (hl : l.all (fun p => pred p.2) = true) :
    (eraseKey k l).all (fun p => pred p.2) = true := by
  rw [List.all_eq_true] at hl ⊢
  intro p hp
  exact hl p (List.mem_of_mem_filter hp)

/-- The entry-insertion tail of `received_tx_add_input` records the
message's own sequence, so it keeps the RBF invariant when that sequence is
below 0xFFFFFFFE. -/
theorem received_add_input_entry_seq (ctx ctx' : NegotiationContext)
    (msg : TxAddInput) (txid : Nat)
    (hinv : seq_invariant_holds ctx = true)
    (hseq : msg.sequence < 0xFFFFFFFE)
    (h : ctx.received_add_input_entry msg txid = .ok ctx') :
    seq_invariant_holds ctx' = true := by
  rw [NegotiationContext.received_add_input_entry] at h
  rcases hlk : lookupKey msg.serial_id ctx.inputs with _ | v <;> rw [hlk] at h
  · dsimp only [] at h
    cases hb : (msg.shared_input_txid.bind (fun t =>
        ctx.shared_funding_input.map
          (fun input => t == input.txin.previous_output.txid))).getD false <;>
      rw [hb] at h
    · simp only [Bool.false_eq_true, if_false] at h
      rcases hget : msg.prevtx.output.get? msg.prevtx_out with _ | txo <;>
        rw [hget] at h
      · exact Except.noConfusion h
      · cases h
        rw [seq_invariant_holds] at hinv ⊢
        exact all_insertKey (fun (i : InteractiveTxInput) => decide (i.txin.sequence < 0xFFFFFFFE)) _ _ _
          hinv (by simp only [InteractiveTxInput.txin, decide_eq_true_eq]; omega)
    · simp only [if_true] at h
      cases h
      rw [seq_invariant_holds] at hinv ⊢
      exact all_insertKey (fun (i : InteractiveTxInput) => decide (i.txin.sequence < 0xFFFFFFFE)) _ _ _
        hinv (by simp only [InteractiveTxInput.txin, decide_eq_true_eq]; omega)
  · exact Except.noConfusion h

/-- A successful `received_tx_add_input` preserves the RBF invariant: the
sequence check has passed, and the recorded entry carries the message's
sequence. -/
theorem received_tx_add_input_seq_preserved (ctx ctx' : NegotiationContext)
    (msg : TxAddInput) (hinv : seq_invariant_holds ctx = true)
    (h : ctx.received_tx_add_input msg = .ok ctx') :
    seq_invariant_holds ctx' = true := by
  rw [NegotiationContext.received_tx_add_input] at h
  split at h
  · exact Except.noConfusion h
  · dsimp only [] at h
    split at h
    · exact Except.noConfusion h
    · split at h
      · exact Except.noConfusion h
      · rename_i hseq
        split at h
        · split at h
          · exact Except.noConfusion h
          · split at h
            · exact Except.noConfusion h
            · refine received_add_input_entry_seq _ _ _ _ ?_ (by omega) h
              exact hinv
        · split at h
          · exact Except.noConfusion h
          · refine received_add_input_entry_seq _ _ _ _ ?_ (by omega) h
            exact hinv

/-- A successful `sent_tx_add_input` with a sub-RBF sequence (and, for a
shared add, a sub-RBF shared funding input) preserves the invariant. -/
theorem sent_tx_add_input_seq_preserved (ctx ctx' : NegotiationContext)
    (msg : TxAddInput) (hinv : seq_invariant_holds ctx = true)
    (hseq : msg.sequence < 0xFFFFFFFE)
    (hshared : ctx.shared_funding_input.all
      (fun s => decide (s.txin.sequence < 0xFFFFFFFE)) = true)
    (h : ctx.sent_tx_add_input msg = .ok ctx') :
    seq_invariant_holds ctx' = true := by
  rw [NegotiationContext.sent_tx_add_input] at h
  split at h
  · exact Except.noConfusion h
  · dsimp only [] at h
    split at h
    · cases h
      rw [seq_invariant_holds] at hinv ⊢
      refine all_insertKey
        (fun (i : InteractiveTxInput) => decide (i.txin.sequence < 0xFFFFFFFE)) _ _ _
        hinv ?_
      rcases hsf : ctx.shared_funding_input with _ | sfi
      · simp only [hsf, Option.map_none', Option.getD_none, InteractiveTxInput.txin,
          decide_eq_true_eq]
        exact hseq
      · rw [hsf] at hshared
        simp only [hsf, Option.map_some', Option.getD_some, InteractiveTxInput.txin]
        simpa using hshared
    · split at h
      · cases h
        rw [seq_invariant_holds] at hinv ⊢
        exact all_insertKey
          (fun (i : InteractiveTxInput) => decide (i.txin.sequence < 0xFFFFFFFE)) _ _ _
          hinv (by simp only [InteractiveTxInput.txin, decide_eq_true_eq]; omega)
      · exact Except.noConfusion h

/-- Removing an input (received path) preserves the invariant. -/
theorem received_tx_remove_input_seq_preserved (ctx ctx' : NegotiationContext)
    (msg : TxRemoveInput) (hinv : seq_invariant_holds ctx = true)
    (h : ctx.received_tx_remove_input msg = .ok ctx') :
    seq_invariant_holds ctx' = true := by
  rw [NegotiationContext.received_tx_remove_input] at h
  split at h
  · exact Except.noConfusion h
  · split at h
    · cases h
      rw [seq_invariant_holds] at hinv ⊢
      exact all_eraseKey
        (fun (i : InteractiveTxInput) => decide (i.txin.sequence < 0xFFFFFFFE)) _ _ hinv
    · exact Except.noConfusion h

/-- Removing an input (sent path) preserves the invariant. -/
theorem sent_tx_remove_input_seq_preserved (ctx ctx' : NegotiationContext)
    (msg : TxRemoveInput) (hinv : seq_invariant_holds ctx = true)
    (h : ctx.sent_tx_remove_input msg = .ok ctx') :
    seq_invariant_holds ctx' = true := by
  cases h
  rw [seq_invariant_holds] at hinv ⊢
  exact all_eraseKey
    (fun (i : InteractiveTxInput) => decide (i.txin.sequence < 0xFFFFFFFE)) _ _ hinv

/-- Output-side mutators do not touch the input table. -/
theorem output_mutators_seq_preserved (ctx : NegotiationContext)
    (m1 : TxAddOutput) (m2 : TxRemoveOutput)
    (hinv : seq_invariant_holds ctx = true) :
    (∀ ctx', ctx.received_tx_add_output m1 = .ok ctx' →
      seq_invariant_holds ctx' = true) ∧
    (∀ ctx', ctx.received_tx_remove_output m2 = .ok ctx' →
      seq_invariant_holds ctx' = true) ∧
    (∀ ctx', ctx.sent_tx_add_output m1 = .ok ctx' →
      seq_invariant_holds ctx' = true) ∧
    (∀ ctx', ctx.sent_tx_remove_output m2 = .ok ctx' →
      seq_invariant_holds ctx' = true) := by
  refine ⟨fun ctx' h => ?_, fun ctx' h => ?_, fun ctx' h => ?_, fun ctx' h => ?_⟩
  · rw [NegotiationContext.received_tx_add_output] at h
    split at h
    · exact Except.noConfusion h
    · dsimp only [] at h
      split at h
      · exact Except.noConfusion h
      · split at h
        · exact Except.noConfusion h
        · split at h
          · exact Except.noConfusion h
          · split at h
            · exact Except.noConfusion h
            · split at h
              · exact Except.noConfusion h
              · cases h
                exact hinv
  · rw [NegotiationContext.received_tx_remove_output] at h
    split at h
    · exact Except.noConfusion h
    · split at h
      · cases h
        exact hinv
      · exact Except.noConfusion h
  · rw [NegotiationContext.sent_tx_add_output] at h
    cases h
    exact hinv
  · cases h
    exact hinv

/-- Claim C5 (amended): a `received_tx_add_input` whose sequence is
0xFFFFFFFE or 0xFFFFFFFF fails with `IncorrectInputSequenceValue` (once the
parity and count checks pass) and adds nothing; every received mutator and
every sent mutator except `sent_tx_add_input` preserves the no-RBF-sequence
invariant on the input table, and `sent_tx_add_input` preserves it when the
message's sequence (and, for a shared add, the shared funding input's
sequence) is below 0xFFFFFFFE — the sent path itself performs no sequence
check. -/
theorem sequence_invariant_received_only (ctx : NegotiationContext)
    (hinv : seq_invariant_holds ctx = true) :
    (∀ msg : TxAddInput,
      ctx.is_serial_id_valid_for_counterparty msg.serial_id = true →
      ctx.received_tx_add_input_count + 1 ≤ MAX_RECEIVED_TX_ADD_INPUT_COUNT →
      msg.sequence ≥ 0xFFFFFFFE →
      ctx.received_tx_add_input msg = .error .IncorrectInputSequenceValue) ∧
    (∀ (msg : TxAddInput) ctx', ctx.received_tx_add_input msg = .ok ctx' →
      seq_invariant_holds ctx' = true) ∧
    (∀ (msg : TxRemoveInput) ctx', ctx.received_tx_remove_input msg = .ok ctx' →
      seq_invariant_holds ctx' = true) ∧
    (∀ (msg : TxAddOutput) ctx', ctx.received_tx_add_output msg = .ok ctx' →
      seq_invariant_holds ctx' = true) ∧
    (∀ (msg : TxRemoveOutput) ctx', ctx.received_tx_remove_output msg = .ok ctx' →
      seq_invariant_holds ctx' = true) ∧
    (∀ (msg : TxRemoveInput) ctx', ctx.sent_tx_remove_input msg = .ok ctx' →
      seq_invariant_holds ctx' = true) ∧
    (∀ (msg : TxAddOutput) ctx', ctx.sent_tx_add_output msg = .ok ctx' →
      seq_invariant_holds ctx' = true) ∧
    (∀ (msg : TxRemoveOutput) ctx', ctx.sent_tx_remove_output msg = .ok ctx' →
      seq_invariant_holds ctx' = true) ∧
    (∀ (msg : TxAddInput) ctx', msg.sequence < 0xFFFFFFFE →
      ctx.shared_funding_input.all
        (fun s => decide (s.txin.sequence < 0xFFFFFFFE)) = true →
      ctx.sent_tx_add_input msg = .ok ctx' →
      seq_invariant_holds ctx' = true) := by
  refine ⟨fun msg hpar hcount hseq => ?_,
    fun msg ctx' h => received_tx_add_input_seq_preserved ctx ctx' msg hinv h,
    fun msg ctx' h => received_tx_remove_input_seq_preserved ctx ctx' msg hinv h,
    fun msg ctx' h => ((output_mutators_seq_preserved ctx msg { serial_id := 0 } hinv).1) ctx' h,
    fun msg ctx' h =>
      ((output_mutators_seq_preserved ctx { serial_id := 0, sats := 0, script := [] } msg hinv).2.1) ctx' h,
    fun msg ctx' h => sent_tx_remove_input_seq_preserved ctx ctx' msg hinv h,
    fun msg ctx' h =>
      ((output_mutators_seq_preserved ctx msg { serial_id := 0 } hinv).2.2.1) ctx' h,
    fun msg ctx' h =>
      ((output_mutators_seq_preserved ctx { serial_id := 0, sats := 0, script := [] } msg hinv).2.2.2) ctx' h,
    fun msg ctx' hseq hshared h =>
      sent_tx_add_input_seq_preserved ctx ctx' msg hinv hseq hshared h⟩
  rw [NegotiationContext.received_tx_add_input, hpar]
  simp only [Bool.not_true, Bool.false_eq_true, if_false]
  rw [if_neg (by unfold MAX_RECEIVED_TX_ADD_INPUT_COUNT at hcount ⊢; omega),
    if_pos hseq]

/-- Counterexample for claim C5 as stated: `sent_tx_add_input` performs no
sequence check, so a local add carrying sequence 0xFFFFFFFF succeeds and
leaves the input table violating the claimed invariant. -/
theorem sent_tx_add_input_inserts_rbf_sequence :
    (emptyCtx.sent_tx_add_input
      { serial_id := 0
        prevtx := { txid := 99, output := [{ value := 1000, script_pubkey := [] }] }
        prevtx_out := 0
        sequence := 0xFFFFFFFF
        shared_input_txid := none }).map seq_invariant_holds = .ok false := by
  rfl

/-- Witness for claim C5 (amended): on the fresh context a received add
with sequence 0xFFFFFFFE aborts with `IncorrectInputSequenceValue`, and a
received add with an ordinary sequence keeps the invariant. -/
theorem sequence_invariant_received_only_witness :
    emptyCtx.received_tx_add_input
      { serial_id := 1
        prevtx := { txid := 7, output := [{ value := 5, script_pubkey := 0 :: 20 :: List.replicate 20 9 }] }
        prevtx_out := 0
        sequence := 0xFFFFFFFE
        shared_input_txid := none } = .error .IncorrectInputSequenceValue := by
  have h := sequence_invariant_received_only emptyCtx (by decide)
  exact h.1 _ (by decide) (by decide) (by decide)

/-- Claim C9: a successful `received_tx_remove_input` erases only the table
entry — `prevtx_outpoints` is untouched — so a later `received_tx_add_input`
that resolves to the removed entry's `(txid, vout)` (with its prevout
present in the message's prevtx as a witness output, and the parity, count
and sequence checks passing) still hits the dedup set and fails with
`PrevTxOutInvalid`. -/
theorem prevtx_outpoints_never_pruned (ctx ctx' : NegotiationContext)
    (msg : TxRemoveInput) (entry : InteractiveTxInput)
    (hlook : lookupKey msg.serial_id ctx.inputs = some entry)
    (hrem : ctx.received_tx_remove_input msg = .ok ctx')
    (msg2 : TxAddInput)
    (hpar : ctx'.is_serial_id_valid_for_counterparty msg2.serial_id = true)
    (hcount : ctx'.received_tx_add_input_count + 1 ≤ MAX_RECEIVED_TX_ADD_INPUT_COUNT)
    (hseq : msg2.sequence < 0xFFFFFFFE)
    (ho : entry.txin.previous_output ∈ ctx.prevtx_outpoints)
    (htxid : msg2.shared_input_txid.getD msg2.prevtx.txid =
      entry.txin.previous_output.txid)
    (hvout : msg2.prevtx_out = entry.txin.previous_output.vout)
    (txo : TxOut)
    (hget : msg2.prevtx.output.get? msg2.prevtx_out = some txo)
    (hwit : is_witness_program txo.script_pubkey = true) :
    ctx'.prevtx_outpoints = ctx.prevtx_outpoints ∧
    ctx'.received_tx_add_input msg2 = .error .PrevTxOutInvalid := by
  rw [NegotiationContext.received_tx_remove_input] at hrem
  split at hrem
  · exact Except.noConfusion hrem
  · rw [hlook] at hrem
    cases hrem
    have hmem : OutPoint.mk (msg2.shared_input_txid.getD msg2.prevtx.txid)
        msg2.prevtx_out ∈ ctx.prevtx_outpoints := by
      rw [htxid, hvout]
      exact ho
    replace hcount :
        ctx.received_tx_add_input_count + 1 ≤ MAX_RECEIVED_TX_ADD_INPUT_COUNT :=
      hcount
    refine ⟨rfl, ?_⟩
    simp only [NegotiationContext.received_tx_add_input, hpar, hget, hwit, hmem,
      Bool.not_true, Bool.false_eq_true, if_false, if_true]
    rw [if_neg (by unfold MAX_RECEIVED_TX_ADD_INPUT_COUNT at hcount ⊢; omega)]
    rw [if_neg (by omega)]

/-- The single-entry context used to instantiate claim C9. -/
def ctx9 : NegotiationContext :=
  { emptyCtx with
    inputs := [(1, InteractiveTxInput.Remote {
      serial_id := 1
      txin := { previous_output := { txid := 7, vout := 0 }, sequence := 0 }
      prev_tx := {
        txid := 7
        output := [{ value := 5, script_pubkey := 0 :: 20 :: List.replicate 20 9 }] }
      prevout_value := 5 })]
    prevtx_outpoints := [{ txid := 7, vout := 0 }] }

/-- The replayed `tx_add_input` used to instantiate claim C9. -/
def msg9 : TxAddInput :=
  { serial_id := 1
    prevtx := {
      txid := 7
      output := [{ value := 5, script_pubkey := 0 :: 20 :: List.replicate 20 9 }] }
    prevtx_out := 0
    sequence := 0
    shared_input_txid := none }

/-- Witness for claim C9: after removing the only input, the dedup set is
unchanged and replaying its `tx_add_input` is rejected as a duplicate
prevout. -/
theorem prevtx_outpoints_never_pruned_witness :
    ({ ctx9 with inputs := [] } : NegotiationContext).prevtx_outpoints =
      ctx9.prevtx_outpoints ∧
    ({ ctx9 with inputs := [] } : NegotiationContext).received_tx_add_input msg9 =
      .error .PrevTxOutInvalid := by
  exact prevtx_outpoints_never_pruned ctx9 { ctx9 with inputs := [] }
    { serial_id := 1 }
    (InteractiveTxInput.Remote {
      serial_id := 1
      txin := { previous_output := { txid := 7, vout := 0 }, sequence := 0 }
      prev_tx := {
        txid := 7
        output := [{ value := 5, script_pubkey := 0 :: 20 :: List.replicate 20 9 }] }
      prevout_value := 5 })
    (by rfl) (by rfl) msg9 (by decide) (by decide) (by decide) (by decide)
    (by decide) (by decide)
    { value := 5, script_pubkey := 0 :: 20 :: List.replicate 20 9 }
    (by decide) (by decide)

/-- Sorting a serial-id-keyed table by key yields a key-sorted list. -/
theorem sorted_insertionSort_bykey {α : Type} (l : List (SerialId × α)) :
    List.Sorted (fun a b => a.1 ≤ b.1)
      (List.insertionSort (fun a b => a.1 ≤ b.1) l) := by
  apply @List.sorted_insertionSort _ _ _ ?_ ?_
  · exact ⟨fun a b => Nat.le_total a.1 b.1⟩
  · exact ⟨fun a b c hab hbc => Nat.le_trans hab hbc⟩

/-- Claim C1: a successful `build_transaction` returns a transaction with
version 2, the negotiated locktime, and input/output lists that are exactly
the table entries sorted ascending by serial id; and when the earlier
checks pass but the assembled transaction's weight exceeds the standard
limit, it fails with `TransactionTooLarge` instead. -/
theorem build_transaction_shape (ctx : NegotiationContext) :
    (∀ tx : Transaction, ctx.build_transaction = .ok tx →
      tx.version = 2 ∧ tx.lock_time = ctx.tx_locktime ∧
      (∃ ins : List (SerialId × InteractiveTxInput),
        List.Perm ins ctx.inputs ∧ List.Sorted (fun a b => a.1 ≤ b.1) ins ∧
        tx.input = ins.map (fun p => p.2.txin)) ∧
      (∃ outs : List (SerialId × InteractiveTxOutput),
        List.Perm outs ctx.outputs ∧ List.Sorted (fun a b => a.1 ≤ b.1) outs ∧
        tx.output = outs.map (fun p => p.2.txout))) ∧
    (¬ ctx.counterparty_value_in < ctx.counterparty_value_out →
      ¬ (ctx.inputs.length > MAX_INPUTS_OUTPUTS_COUNT ∨
        ctx.outputs.length > MAX_INPUTS_OUTPUTS_COUNT) →
      ¬ ctx.counterparty_fees_contributed
        < ctx.required_counterparty_contribution_fee →
      txWeight ctx.assembled_tx > MAX_STANDARD_TX_WEIGHT →
      ctx.build_transaction = .error .TransactionTooLarge) := by
  constructor
  · intro tx h
    rw [NegotiationContext.build_transaction] at h
    split at h
    · exact Except.noConfusion h
    · split at h
      · exact Except.noConfusion h
      · split at h
        · exact Except.noConfusion h
        · simp only [] at h
          split at h
          · exact Except.noConfusion h
          · cases h
            refine ⟨rfl, rfl, ?_, ?_⟩
            · exact ⟨List.insertionSort (fun a b => a.1 ≤ b.1) ctx.inputs,
                List.perm_insertionSort _ _, sorted_insertionSort_bykey _, rfl⟩
            · exact ⟨List.insertionSort (fun a b => a.1 ≤ b.1) ctx.outputs,
                List.perm_insertionSort _ _, sorted_insertionSort_bykey _, rfl⟩
  · intro h1 h2 h3 hw
    rw [NegotiationContext.build_transaction, if_neg h1, if_neg h2, if_neg h3]
    simp only []
    rw [if_pos hw]

/-- The large context used for the `TransactionTooLarge` half of the claim
C1 witness: 252 holder outputs with 387-byte scripts push the assembled
weight to 401,224, above the 400,000 standardness limit. -/
def tooLargeCtx : NegotiationContext :=
  { emptyCtx with
    outputs := (List.range 252).map (fun i => (2 * i, InteractiveTxOutput.Local {
      serial_id := 2 * i
      txout := { value := 0, script_pubkey := List.replicate 387 0 } })) }

set_option maxRecDepth 40000 in
/-- Witness for claim C1: the empty negotiation builds the empty version-2
locktime-1337 transaction, and the large-output context fails with
`TransactionTooLarge`. -/
theorem build_transaction_shape_witness :
    (({ version := 2, lock_time := 1337, input := [], output := [] } :
        Transaction).version = 2) ∧
    tooLargeCtx.build_transaction = .error .TransactionTooLarge := by
  refine ⟨((build_transaction_shape emptyCtx).1 _ (by rfl)).1, ?_⟩
  exact (build_transaction_shape tooLargeCtx).2 (by decide) (by decide) (by decide)
    (by decide)

/-- Claim C2 (amended): the counterparty's required fee before the
common-fields addition is `fee_for_weight` of their contributed weight,
where each of their outputs weighs `(8 + consensus-serialized script
length) · 4` — the serialized length includes the compact-size prefix —
and each of their inputs weighs `INPUT_WEIGHT`; given that the balance and
count checks pass, `build_transaction` fails with `InsufficientFees`
exactly when their contributed fees fall short of the required fee. -/
theorem build_insufficient_fees_iff (ctx : NegotiationContext)
    (h1 : ¬ ctx.counterparty_value_in < ctx.counterparty_value_out)
    (h2 : ¬ (ctx.inputs.length > MAX_INPUTS_OUTPUTS_COUNT ∨
      ctx.outputs.length > MAX_INPUTS_OUTPUTS_COUNT)) :
    ctx.counterparty_weight_contributed =
      (ctx.counterparty_outputs_contributed.map
        (fun output => (8 + consensusEncodedLen output.txout.script_pubkey)
          * WITNESS_SCALE_FACTOR)).sum
      + ctx.counterparty_inputs_contributed.length * INPUT_WEIGHT ∧
    (ctx.build_transaction = .error .InsufficientFees ↔
      ctx.counterparty_fees_contributed
        < ctx.required_counterparty_contribution_fee) := by
  refine ⟨rfl, ?_⟩
  rw [NegotiationContext.build_transaction, if_neg h1, if_neg h2]
  by_cases h3 : ctx.counterparty_fees_contributed
      < ctx.required_counterparty_contribution_fee
  · rw [if_pos h3]
    simp [h3]
  · rw [if_neg h3]
    simp only []
    split <;> simp [h3]

/-- The concrete negotiation used to refute the raw-script-length fee
formula of claim C2: the holder is the initiator, the counterparty
contributed one input worth 1284 sats and one 1000-sat output with a
22-byte script, at 1000 sat/kw. -/
def ctx2 : NegotiationContext :=
  { emptyCtx with
    feerate_sat_per_kw := 1000
    inputs := [(1, InteractiveTxInput.Remote {
      serial_id := 1
      txin := { previous_output := { txid := 11, vout := 0 }, sequence := 0 }
      prev_tx := {
        txid := 11
        output := [{ value := 1284, script_pubkey := 0 :: 20 :: List.replicate 20 3 }] }
      prevout_value := 1284 })]
    outputs := [(3, InteractiveTxOutput.Remote {
      serial_id := 3
      txout := { value := 1000, script_pubkey := List.replicate 22 0 } })]
    prevtx_outpoints := [{ txid := 11, vout := 0 }] }

/-- Counterexample for claim C2 as stated: with the counterparty's weight
computed from the raw script length — `(8 + len(script_pubkey)) · 4` — the
required fee would be 284 sats, which the counterparty contributed
exactly; yet `build_transaction` still fails with `InsufficientFees`,
because the source also counts the script's compact-size length prefix
(weight 288, fee 288). -/
theorem build_insufficient_fees_spec_weight_counterexample :
    ctx2.build_transaction = .error .InsufficientFees ∧
    ¬ (ctx2.counterparty_fees_contributed <
        fee_for_weight ctx2.feerate_sat_per_kw ctx2.claimed_counterparty_weight) ∧
    ctx2.claimed_counterparty_weight ≠ ctx2.counterparty_weight_contributed := by
  refine ⟨by rfl, by decide, by decide⟩

/-- Witness for claim C2 (amended): on the concrete context the balance and
count checks pass and the fee shortfall is observed. -/
theorem build_insufficient_fees_iff_witness :
    ctx2.build_transaction = .error .InsufficientFees := by
  have h := build_insufficient_fees_iff ctx2 (by decide) (by decide)
  exact h.2.mpr (by decide)

